import Mathlib

/-!
Shallow embedding of the OpenRCT2 paint core (`src/openrct2/paint/Paint.cpp`):
the projection/bounding-box builder, quadrant bucketer, depth-order arranger
and draw dispatcher, together with theorems checking the natural-language
specification against this embedding.

Machine integers of the C++ source are modelled as `Int` (with explicit
wrapping where the source casts), list-threaded intrusive pointers as Lean
`List`s, and fallible operations as `Option`.
-/

namespace Paint

/-! ## Basic coordinate types (OpenRCT2 `CoordsXY` / `CoordsXYZ` / `ScreenCoordsXY`). -/

structure CoordsXY where
  x : Int
  y : Int
deriving Repr, DecidableEq

structure CoordsXYZ where
  x : Int
  y : Int
  z : Int
deriving Repr, DecidableEq

structure ScreenCoordsXY where
  x : Int
  y : Int
deriving Repr, DecidableEq

/-- Modelled from the spec: `CoordsXY::Rotate` (declared in `Location.hpp`,
which is not part of the sources here) — the 90-degree-quantized rotation of a
2D coordinate used by the projection builder and the bucketer ("rotate the 2D
origin (x,y) by the camera rotation"). -/
def rotateXY (c : CoordsXY) (direction : Nat) : CoordsXY :=
  match direction % 4 with
  | 0 => c
  | 1 => { x := c.y, y := -c.x }
  | 2 => { x := -c.x, y := -c.y }
  | _ => { x := -c.y, y := c.x }

/-- `CoordsXYZ{ c.Rotate(d), c.z }`: rotate the xy-part, keep z. -/
def rotateXYZ (c : CoordsXYZ) (direction : Nat) : CoordsXYZ :=
  let r := rotateXY ⟨c.x, c.y⟩ direction
  ⟨r.x, r.y, c.z⟩

/-! ## Bounding boxes and the rotation-specific dominance tests. -/

/-- The fields of `paint_struct_bound_box` that the dominance tests and the
position hash read (`x`, `y`, `z` near corner; `x_end`, `y_end`, `z_end` far
corner). -/
structure BoundBox where
  x : Int
  y : Int
  z : Int
  x_end : Int
  y_end : Int
  z_end : Int
deriving Repr, DecidableEq

/-- `CheckBoundingBox<0>` from `Paint.cpp`. -/
def CheckBoundingBox0 (initialBBox currentBBox : BoundBox) : Bool :=
  decide (initialBBox.z_end ≥ currentBBox.z) && decide (initialBBox.y_end ≥ currentBBox.y)
    && decide (initialBBox.x_end ≥ currentBBox.x)
    && !(decide (initialBBox.z < currentBBox.z_end) && decide (initialBBox.y < currentBBox.y_end)
    && decide (initialBBox.x < currentBBox.x_end))

/-- `CheckBoundingBox<1>` from `Paint.cpp`. -/
def CheckBoundingBox1 (initialBBox currentBBox : BoundBox) : Bool :=
  decide (initialBBox.z_end ≥ currentBBox.z) && decide (initialBBox.y_end ≥ currentBBox.y)
    && decide (initialBBox.x_end < currentBBox.x)
    && !(decide (initialBBox.z < currentBBox.z_end) && decide (initialBBox.y < currentBBox.y_end)
    && decide (initialBBox.x ≥ currentBBox.x_end))

/-- `CheckBoundingBox<2>` from `Paint.cpp`. -/
def CheckBoundingBox2 (initialBBox currentBBox : BoundBox) : Bool :=
  decide (initialBBox.z_end ≥ currentBBox.z) && decide (initialBBox.y_end < currentBBox.y)
    && decide (initialBBox.x_end < currentBBox.x)
    && !(decide (initialBBox.z < currentBBox.z_end) && decide (initialBBox.y ≥ currentBBox.y_end)
    && decide (initialBBox.x ≥ currentBBox.x_end))

/-- `CheckBoundingBox<3>` from `Paint.cpp`. -/
def CheckBoundingBox3 (initialBBox currentBBox : BoundBox) : Bool :=
  decide (initialBBox.z_end ≥ currentBBox.z) && decide (initialBBox.y_end < currentBBox.y)
    && decide (initialBBox.x_end ≥ currentBBox.x)
    && !(decide (initialBBox.z < currentBBox.z_end) && decide (initialBBox.y ≥ currentBBox.y_end)
    && decide (initialBBox.x < currentBBox.x_end))

/-- The dispatch of `PaintArrangeStructsHelper` on the rotation; rotations
other than 0–3 fall back to the generic `CheckBoundingBox` template, which
returns `false`. -/
def CheckBoundingBoxR (rotation : Nat) : BoundBox → BoundBox → Bool :=
  match rotation with
  | 0 => CheckBoundingBox0
  | 1 => CheckBoundingBox1
  | 2 => CheckBoundingBox2
  | 3 => CheckBoundingBox3
  | _ => fun _ _ => false

/-- The rotation-0 dominance test with a per-axis flip switch: a flipped axis
replaces each of its two comparisons by the comparison of the opposite
direction (`≥` becomes `<` and `<` becomes `≥`).  `checkGen false false false`
is exactly `CheckBoundingBox0`. -/
def checkGen (fx fy fz : Bool) (i c : BoundBox) : Bool :=
  (if fz then decide (i.z_end < c.z) else decide (i.z_end ≥ c.z))
    && (if fy then decide (i.y_end < c.y) else decide (i.y_end ≥ c.y))
    && (if fx then decide (i.x_end < c.x) else decide (i.x_end ≥ c.x))
    && !((if fz then decide (i.z ≥ c.z_end) else decide (i.z < c.z_end))
      && (if fy then decide (i.y ≥ c.y_end) else decide (i.y < c.y_end))
      && (if fx then decide (i.x ≥ c.x_end) else decide (i.x < c.x_end)))

/-! ## `RotateBoundBoxSize`. -/

/-- `RotateBoundBoxSize` from `Paint.cpp`: decrement a rotation-dependent set
of axes, then apply a 90-degree-quantized rotation to the xy-part. -/
def RotateBoundBoxSize (bbSize : CoordsXYZ) (rotation : Nat) : CoordsXYZ :=
  match rotation with
  | 0 => rotateXYZ { bbSize with x := bbSize.x - 1, y := bbSize.y - 1 } 0
  | 1 => rotateXYZ { bbSize with x := bbSize.x - 1 } 3
  | 2 => rotateXYZ bbSize 2
  | _ => rotateXYZ { bbSize with y := bbSize.y - 1 } 1

/-- The rotation angle that `RotateBoundBoxSize` applies for each camera
rotation (the source calls `Rotate(0)`, `Rotate(3)`, `Rotate(2)`, `Rotate(1)`
for rotations 0, 1, 2, 3 respectively). -/
def rbbsAngle (rotation : Nat) : Nat :=
  match rotation with
  | 0 => 0
  | 1 => 3
  | 2 => 2
  | _ => 1

/-- One of the three coordinate axes. -/
inductive Axis where
  | x
  | y
  | z
deriving Repr, DecidableEq

/-- Subtract 1 from the given axis of a coordinate triple. -/
def decAxis (a : Axis) (c : CoordsXYZ) : CoordsXYZ :=
  match a with
  | .x => { c with x := c.x - 1 }
  | .y => { c with y := c.y - 1 }
  | .z => { c with z := c.z - 1 }

/-- The axes that `RotateBoundBoxSize` actually decrements for each rotation. -/
def decAxesFor (rotation : Nat) : List Axis :=
  match rotation with
  | 0 => [.x, .y]
  | 1 => [.x]
  | 2 => []
  | _ => [.y]

/-! ## The projection and bounding-box builder (`sub_9819_c`). -/

/-- The fields of `rct_g1_element` that the culling test reads. -/
structure G1Element where
  x_offset : Int
  y_offset : Int
  width : Int
  height : Int
deriving Repr, DecidableEq

/-- The fields of `rct_drawpixelinfo` that the paint core reads: the clip
rectangle and the zoom level. -/
structure DPI where
  x : Int
  y : Int
  width : Int
  height : Int
  zoom_level : Int
deriving Repr, DecidableEq

/-- `ImageWithinDPI` from `Paint.cpp`: does the image footprint intersect the
clip rectangle? -/
def ImageWithinDPI (imagePos : ScreenCoordsXY) (g1 : G1Element) (dpi : DPI) : Bool :=
  let left := imagePos.x + g1.x_offset
  let bottom := imagePos.y + g1.y_offset
  let right := left + g1.width
  let top := bottom + g1.height
  if right ≤ dpi.x then false
  else if top ≤ dpi.y then false
  else if left ≥ dpi.x + dpi.width then false
  else if bottom ≥ dpi.y + dpi.height then false
  else true

/-- The session fields that `sub_9819_c` reads. -/
structure BuilderState where
  noPaintStructsAvailable : Bool
  currentRotation : Nat
  spritePosition : CoordsXY
  dpi : DPI
  interactionType : Nat
  mapPosition : CoordsXY

/-- The builder's output: the fields of the freshly constructed
`paint_struct` that `sub_9819_c` fills in. -/
structure PaintStructData where
  image_id : Nat
  x : Int
  y : Int
  bounds : BoundBox
  flags : Nat
  sprite_type : Nat
  map_x : Int
  map_y : Int
deriving Repr, DecidableEq

/-- The screen position that `sub_9819_c` computes for the image: rotate the
offset by the swapped rotation, add the sprite position, and project.  The
projection `translate_3d_to_2d_with_z` lives in the viewport code (outside
these sources), so it is passed in as a parameter. -/
def builderImagePos (translate : Nat → CoordsXYZ → ScreenCoordsXY) (b : BuilderState)
    (offset : CoordsXYZ) : ScreenCoordsXY :=
  let swappedRotation := (b.currentRotation * 3) % 4
  let r := rotateXYZ offset swappedRotation
  let swappedRotCoord : CoordsXYZ :=
    { r with x := r.x + b.spritePosition.x, y := r.y + b.spritePosition.y }
  translate b.currentRotation swappedRotCoord

/-- `sub_9819_c` from `Paint.cpp`.  `translate` stands for the external
projection `translate_3d_to_2d_with_z`, and `g1` for the result of the
external lookup `gfx_get_g1_element(image_id & 0x7FFFF)`. -/
def sub_9819_c (translate : Nat → CoordsXYZ → ScreenCoordsXY) (g1 : Option G1Element)
    (b : BuilderState) (image_id : Nat) (offset boundBoxSize boundBoxOffset : CoordsXYZ) :
    Option PaintStructData :=
  if b.noPaintStructsAvailable then none
  else
    match g1 with
    | none => none
    | some g =>
      let imagePos := builderImagePos translate b offset
      if !ImageWithinDPI imagePos g b.dpi then none
      else
        let swappedRotation := (b.currentRotation * 3) % 4
        let rotBoundBoxOffset := rotateXYZ boundBoxOffset swappedRotation
        let rotBoundBoxSize := RotateBoundBoxSize boundBoxSize b.currentRotation
        some
          { image_id := image_id
            x := imagePos.x
            y := imagePos.y
            bounds :=
              { x_end := rotBoundBoxSize.x + rotBoundBoxOffset.x + b.spritePosition.x
                y_end := rotBoundBoxSize.y + rotBoundBoxOffset.y + b.spritePosition.y
                z_end := rotBoundBoxSize.z + rotBoundBoxOffset.z
                x := rotBoundBoxOffset.x + b.spritePosition.x
                y := rotBoundBoxOffset.y + b.spritePosition.y
                z := rotBoundBoxOffset.z }
            flags := 0
            sprite_type := b.interactionType
            map_x := b.mapPosition.x
            map_y := b.mapPosition.y }

/-! ## Paint-struct nodes and the quadrant bucketer. -/

/-- A `paint_struct` as seen by the bucketer and the depth-order arranger:
its bounding box, its bucket index, and the three `quadrant_flags` bits
(`PAINT_QUADRANT_FLAG_NEXT`, `PAINT_QUADRANT_FLAG_BIGGER`,
`PAINT_QUADRANT_FLAG_IDENTICAL`).  `id` models the identity (address) of the
arena node; the intrusive `next_quadrant_ps` links are modelled by list
structure. -/
structure PS where
  id : Nat
  bounds : BoundBox
  quadrant_index : Nat
  flag_next : Bool
  flag_bigger : Bool
  flag_identical : Bool
deriving Repr, DecidableEq

/-- Modelled from the spec: the size of the fixed bucket table
(`MAX_PAINT_QUADRANTS`, declared in `Paint.h`, which is not among the
sources; the spec fixes only that the table has a fixed maximum size). -/
def MAX_PAINT_QUADRANTS : Nat := 512

/-- `UINT32_MAX`, the sentinel value of `QuadrantBackIndex` when no bucket is
occupied. -/
def UINT32_MAX : Nat := 4294967295

/-- Wrap an integer to `int16_t`, as the cast in `CalculatePositionHash`
does. -/
def toInt16 (n : Int) : Int := (n + 32768) % 65536 - 32768

/-- `CalculatePositionHash` from `Paint.cpp`: rotate the (int16-cast)
bounding-box origin, add a rotation-dependent offset to x, and sum the
coordinates. -/
def CalculatePositionHash (ps : PS) (rotation : Nat) : Int :=
  let pos := rotateXY ⟨toInt16 ps.bounds.x, toInt16 ps.bounds.y⟩ rotation
  let px : Int :=
    match rotation with
    | 1 => pos.x + 0x2000
    | 3 => pos.x + 0x2000
    | 2 => pos.x + 0x4000
    | _ => pos.x
  px + pos.y

/-- The quadrant bucket table and the occupied index range of a session. -/
structure QuadrantsState where
  quadrants : Nat → List PS
  backIndex : Nat
  frontIndex : Nat

/-- `PaintSessionAddPSToQuadrant` from `Paint.cpp`: clamp the hash into the
bucket range, record the bucket index on the primitive, push it onto the
bucket's list (LIFO), and widen the occupied range.  Returns the updated
state and the updated primitive. -/
def PaintSessionAddPSToQuadrant (s : QuadrantsState) (ps : PS) (rotation : Nat) :
    QuadrantsState × PS :=
  let positionHash := CalculatePositionHash ps rotation
  let paintQuadrantIndex :=
    (min (max (Int.tdiv positionHash 32) 0) ((MAX_PAINT_QUADRANTS : Int) - 1)).toNat
  let ps2 := { ps with quadrant_index := paintQuadrantIndex }
  ({ quadrants :=
      Function.update s.quadrants paintQuadrantIndex (ps2 :: s.quadrants paintQuadrantIndex)
     backIndex := min s.backIndex paintQuadrantIndex
     frontIndex := max s.frontIndex paintQuadrantIndex }, ps2)

/-- The generation phase as seen by the bucketer: insert a list of built
primitives one after the other, collecting the updated primitives. -/
def generateInsertions (rotation : Nat) (s : QuadrantsState) :
    List PS → QuadrantsState × List PS
  | [] => (s, [])
  | p :: ps =>
    let r1 := PaintSessionAddPSToQuadrant s p rotation
    let r2 := generateInsertions rotation r1.1 ps
    (r2.1, r1.2 :: r2.2)

/-! ## The session and the primitive-creation operations. -/

/-- An `attached_paint_struct`: a decoration at a fixed screen offset from
its parent.  `next` is the arena index of the next attached sibling. -/
structure AttachedPS where
  image_id : Nat
  x : Int
  y : Int
  flags : Nat
  next : Option Nat
deriving Repr, DecidableEq

/-- The session state threaded through the creation operations.  The paint
arena is modelled from the spec as a fixed-capacity pool: a countdown of free
slots plus a counter handing out node identities; `lastPS` and
`lastAttachedPS` are the chaining cursors (holding arena indices);
`rootAttachHead` holds, per root entry, the arena index of its first attached
decoration (the `attached_ps` field). -/
structure Session where
  remainingPaintEntries : Nat
  nextId : Nat
  currentRotation : Nat
  spritePosition : CoordsXY
  dpi : DPI
  interactionType : Nat
  mapPosition : CoordsXY
  quads : QuadrantsState
  lastPS : Option Nat
  lastAttachedPS : Option Nat
  rootAttachHead : List (Option Nat)
  attachedEntries : List AttachedPS

/-- Modelled from the spec: `paint_session::NoPaintStructsAvailable`
(declared in `Paint.h`, not among the sources) — true when the
fixed-capacity pool is exhausted. -/
def Session.noPaintStructsAvailable (s : Session) : Bool :=
  s.remainingPaintEntries == 0

/-- The builder's read-only view of the session. -/
def Session.builderView (s : Session) : BuilderState :=
  { noPaintStructsAvailable := s.noPaintStructsAvailable
    currentRotation := s.currentRotation
    spritePosition := s.spritePosition
    dpi := s.dpi
    interactionType := s.interactionType
    mapPosition := s.mapPosition }

/-- Modelled from the spec: `paint_session::AllocateRootPaintEntry` (declared
in `Paint.h`, not among the sources) — move the built data into a fresh
arena slot, consume one pool slot, and point the last-primitive cursor at
it. -/
def AllocateRootPaintEntry (s : Session) (d : PaintStructData) : Session × PS :=
  let ps : PS :=
    { id := s.nextId, bounds := d.bounds, quadrant_index := 0
      flag_next := false, flag_bigger := false, flag_identical := false }
  ({ s with
      remainingPaintEntries := s.remainingPaintEntries - 1
      nextId := s.nextId + 1
      lastPS := some s.nextId
      rootAttachHead := s.rootAttachHead ++ [none] }, ps)

/-- `PaintAddImageAsParent` from `Paint.cpp` (the full overload): clear the
chaining cursors, build via `sub_9819_c`, and on success allocate the entry
and bucket it. -/
def PaintAddImageAsParent (translate : Nat → CoordsXYZ → ScreenCoordsXY)
    (g1 : Option G1Element) (s : Session) (image_id : Nat)
    (offset boundBoxSize boundBoxOffset : CoordsXYZ) : Option PS × Session :=
  let s0 := { s with lastPS := none, lastAttachedPS := none }
  match sub_9819_c translate g1 s0.builderView image_id offset boundBoxSize boundBoxOffset with
  | none => (none, s0)
  | some d =>
    let r1 := AllocateRootPaintEntry s0 d
    let r2 := PaintSessionAddPSToQuadrant r1.1.quads r1.2 r1.1.currentRotation
    (some r2.2, { r1.1 with quads := r2.1 })

/-- Overwrite the `next` field of the attached entry at arena index `i`. -/
def setAttachedNext (l : List AttachedPS) (i : Nat) (nxt : Option Nat) : List AttachedPS :=
  match l, i with
  | [], _ => []
  | a :: r, 0 => { a with next := nxt } :: r
  | a :: r, n + 1 => a :: setAttachedNext r n nxt

/-- `PaintAttachToPreviousPS` from `Paint.cpp`: fail on pool exhaustion or
when no last primitive exists; otherwise allocate an attached entry and push
it at the head of the master's attached chain. -/
def PaintAttachToPreviousPS (s : Session) (image_id : Nat) (x y : Int) : Bool × Session :=
  if s.noPaintStructsAvailable then (false, s)
  else
    match s.lastPS with
    | none => (false, s)
    | some masterId =>
      let newIdx := s.attachedEntries.length
      let oldFirstAttached := s.rootAttachHead.getD masterId none
      let ps : AttachedPS :=
        { image_id := image_id, x := x, y := y, flags := 0, next := oldFirstAttached }
      (true,
        { s with
            remainingPaintEntries := s.remainingPaintEntries - 1
            attachedEntries := s.attachedEntries ++ [ps]
            lastAttachedPS := some newIdx
            rootAttachHead := s.rootAttachHead.set masterId (some newIdx) })

/-- `PaintAttachToPreviousAttach` from `Paint.cpp`: fall back to
`PaintAttachToPreviousPS` when no attached primitive exists yet; otherwise
allocate an attached entry and append it after the last attached one. -/
def PaintAttachToPreviousAttach (s : Session) (image_id : Nat) (x y : Int) : Bool × Session :=
  match s.lastAttachedPS with
  | none => PaintAttachToPreviousPS s image_id x y
  | some prevIdx =>
    if s.noPaintStructsAvailable then (false, s)
    else
      let newIdx := s.attachedEntries.length
      let ps : AttachedPS := { image_id := image_id, x := x, y := y, flags := 0, next := none }
      (true,
        { s with
            remainingPaintEntries := s.remainingPaintEntries - 1
            attachedEntries := setAttachedNext (s.attachedEntries ++ [ps]) prevIdx (some newIdx)
            lastAttachedPS := some newIdx })

/-! ## The draw dispatcher's position snapping. -/

/-- Classification tags (`VIEWPORT_INTERACTION_ITEM_...`); the order is
fixed by the `BoundBoxDebugColours` comment in `Paint.cpp` (NONE, TERRAIN,
SPRITE, RIDE, ...). -/
def VIEWPORT_INTERACTION_ITEM_TERRAIN : Nat := 1

/-- The free-standing-entity classification tag. -/
def VIEWPORT_INTERACTION_ITEM_SPRITE : Nat := 2

/-- Modelled from the spec: `floor2` (declared in the shared utility
headers, not among the sources) — floor-align a coordinate to the given
granularity. -/
def floor2 (x n : Int) : Int := n * Int.fdiv x n

/-- The screen position at which `PaintDrawStruct` draws a primitive: the
zoom-level pixel snapping of lines 490–505 of `Paint.cpp`, applied only to
sprite-classified primitives. -/
def PaintDrawStructScreenPos (zoom_level : Int) (sprite_type : Nat) (x y : Int) : Int × Int :=
  if sprite_type = VIEWPORT_INTERACTION_ITEM_SPRITE then
    if zoom_level ≥ 1 then
      let x2 := floor2 x 2
      let y2 := floor2 y 2
      if zoom_level ≥ 2 then (floor2 x2 4, floor2 y2 4) else (x2, y2)
    else (x, y)
  else (x, y)

/-! ## The depth-order arranger (`PaintArrangeStructsHelperRotation` and
`PaintSessionArrange`).

The intrusive singly-linked `next_quadrant_ps` chain is modelled as a Lean
list; a pointer into the chain is modelled as the index of the node it points
at.  The loops of the C++ function are split into one Lean function each. -/

/-- Clear `PAINT_QUADRANT_FLAG_IDENTICAL` (the `&= ~IDENTICAL` step). -/
def clearIdentical (p : PS) : PS := { p with flag_identical := false }

/-- The number of entries whose IDENTICAL flag is set; the arranger clears
one per pass, so this bounds the number of passes. -/
def countIdentical (l : List PS) : Nat := l.countP (·.flag_identical)

/-- The first do-while of `PaintArrangeStructsHelperRotation`: starting at
node `p`, advance while the quadrant index of the next node is below
`quadrantIndex`.  Returns the nodes walked past, the node `ps` the loop stops
at (the future `ps_cache`), and the remaining chain; the remaining chain is
empty exactly when the loop hit the early `return ps`. -/
def findCachePS (quadrantIndex : Nat) (p : PS) : List PS → List PS × PS × List PS
  | [] => ([], p, [])
  | n :: rest =>
    if quadrantIndex > n.quadrant_index then
      let r := findCachePS quadrantIndex n rest
      (p :: r.1, r.2)
    else ([], p, n :: rest)

/-- The flag assignment of the tagging do-while: BIGGER for an index beyond
the window, NEXT and IDENTICAL for the adjacent bucket, `flag` and IDENTICAL
for the current bucket; anything else keeps its stale flags. -/
def setQuadrantFlags (quadrantIndex : Nat) (flagIsNext : Bool) (p : PS) : PS :=
  if p.quadrant_index > quadrantIndex + 1 then
    { p with flag_next := false, flag_bigger := true, flag_identical := false }
  else if p.quadrant_index = quadrantIndex + 1 then
    { p with flag_next := true, flag_bigger := false, flag_identical := true }
  else if p.quadrant_index = quadrantIndex then
    { p with flag_next := flagIsNext, flag_bigger := false, flag_identical := true }
  else p

/-- The tagging do-while of `PaintArrangeStructsHelperRotation`: set flags
node by node, stopping after the first node whose quadrant index exceeds
`quadrantIndex + 1`. -/
def tagQuadrantLoop (quadrantIndex : Nat) (flagIsNext : Bool) : List PS → List PS
  | [] => []
  | p :: rest =>
    let p2 := setQuadrantFlags quadrantIndex flagIsNext p
    if p2.quadrant_index ≤ quadrantIndex + 1 then p2 :: tagQuadrantLoop quadrantIndex flagIsNext rest
    else p2 :: rest

/-- The innermost while of the arranger, scanning forward from a selected
IDENTICAL entry: `spliced` accumulates the entries spliced out so far (most
recent first — each is reinserted directly after `ps_temp`, so they sit in
front of everything scanned), `scanned` the entries passed over (most recent
first).  Stops at the end of the chain or at a BIGGER-flagged entry; a
NEXT-flagged entry passing the dominance test `check` against the selected
entry's bounds is spliced out. -/
def spliceLoop (check : BoundBox → Bool) :
    List PS → List PS → List PS → List PS × List PS × List PS
  | spliced, scanned, [] => (spliced, scanned, [])
  | spliced, scanned, t :: rest =>
    if t.flag_bigger then (spliced, scanned, t :: rest)
    else if t.flag_next && check t.bounds then spliceLoop check (t :: spliced) scanned rest
    else spliceLoop check spliced (t :: scanned) rest

/-- The scan of the outer while(true): find the first IDENTICAL-flagged
entry, stopping at the end of the chain or at a BIGGER-flagged entry.
Returns the prefix walked past, the entry, and the rest. -/
def findIdentical : List PS → Option (List PS × PS × List PS)
  | [] => none
  | n :: rest =>
    if n.flag_bigger then none
    else if n.flag_identical then some ([], n, rest)
    else
      match findIdentical rest with
      | none => none
      | some (pre, s, post) => some (n :: pre, s, post)

/-- The outer while(true) of `PaintArrangeStructsHelperRotation`, fuelled:
each pass selects one IDENTICAL entry, clears its flag, and runs the splice
scan from it; the pass leaves the chain as prefix ++ spliced block ++
selected entry ++ passed-over entries ++ remainder.  `none` means the fuel
ran out (the adequacy theorem shows `countIdentical + 1` always suffices). -/
def outerScan (check : BoundBox → BoundBox → Bool) : Nat → List PS → Option (List PS)
  | 0, _ => none
  | fuel + 1, chain =>
    match findIdentical chain with
    | none => some chain
    | some (pre, s, post) =>
      let s2 := clearIdentical s
      let res := spliceLoop (check s2.bounds) [] [s2] post
      outerScan check fuel (pre ++ (res.1 ++ (res.2.1.reverse ++ res.2.2)))

/-- One call of `PaintArrangeStructsHelperRotation` on the chain starting at
head node `h`: find the cache node, tag the window, run the outer scan.
Returns the rearranged chain together with the index of the returned
`ps_cache` node in it. -/
def PaintArrangeStructsHelperRotation (check : BoundBox → BoundBox → Bool)
    (quadrantIndex : Nat) (flagIsNext : Bool) (h : PS) (t : List PS) :
    Option (List PS × Nat) :=
  let r := findCachePS quadrantIndex h t
  match r.2.2 with
  | [] => some (r.1 ++ [r.2.1], r.1.length)
  | _ :: _ =>
    let tagged := tagQuadrantLoop quadrantIndex flagIsNext r.2.2
    match outerScan check (countIdentical tagged + 1) tagged with
    | none => none
    | some newSuf => some (r.1 ++ r.2.1 :: newSuf, r.1.length)

/-- Run the helper on the sub-chain hanging off the cache node at index
`cacheIdx` of the full chain (the part before it is never touched again). -/
def helperAt (check : BoundBox → BoundBox → Bool) (quadrantIndex : Nat) (flagIsNext : Bool)
    (chain : List PS) (cacheIdx : Nat) : Option (List PS × Nat) :=
  match chain.drop cacheIdx with
  | [] => none
  | h :: t =>
    match PaintArrangeStructsHelperRotation check quadrantIndex flagIsNext h t with
    | none => none
    | some (suf, ci) => some (chain.take cacheIdx ++ suf, cacheIdx + ci)

/-- The while loop of `PaintSessionArrange`, calling the helper once per
quadrant index with flag 0, threading the cache node along. -/
def arrangeFold (check : BoundBox → BoundBox → Bool) :
    List Nat → List PS → Nat → Option (List PS)
  | [], chain, _ => some chain
  | q :: qs, chain, cacheIdx =>
    match helperAt check (q % 65536) false chain cacheIdx with
    | none => none
    | some (c2, ci2) => arrangeFold check qs c2 ci2

/-- `PaintSessionArrange` from `Paint.cpp`: reset the sentinel head's link,
and unless the back index is the empty sentinel, concatenate the buckets from
back to front behind the head, run the helper once at the back index with
flag NEXT, then once per index strictly between back and front with flag 0.
`buckets` stands for `Quadrants[back..front]`. -/
def PaintSessionArrange (rotation : Nat) (head : PS) (backIndex : Option Nat)
    (buckets : List (List PS)) (frontIndex : Nat) : Option (List PS) :=
  match backIndex with
  | none => some [head]
  | some back =>
    let chain := head :: buckets.flatten
    match helperAt (CheckBoundingBoxR rotation) (back % 65536) true chain 0 with
    | none => none
    | some (c1, i1) =>
      arrangeFold (CheckBoundingBoxR rotation)
        (List.range' (back + 1) (frontIndex - (back + 1))) c1 i1

/-- The node identities along a chain, for stating that the arranger neither
creates, loses, nor duplicates entries. -/
def ids (l : List PS) : List Nat := l.map (·.id)

/-! # Theorems -/

/-- C3, counterexample: the rotation-1 dominance test is NOT the rotation-0
test with exactly two axes reversed — no choice of two flipped axes
reproduces it (it flips only the x axis).  Refuted at the concrete pair of
boxes with the initial box all-zero and the current box reaching 1 on x. -/
theorem claim_C3_counterexample :
    ¬ ∃ fx fy fz : Bool, fx.toNat + fy.toNat + fz.toNat = 2 ∧
      ∀ i c : BoundBox, CheckBoundingBox1 i c = checkGen fx fy fz i c := by
  rintro ⟨fx, fy, fz, h2, hall⟩
  have h := hall ⟨0, 0, 0, 0, 0, 0⟩ ⟨1, 0, 0, 1, 0, 0⟩
  revert h2 h
  cases fx <;> cases fy <;> cases fz <;> decide

/-- C3, amended: each rotation-specific dominance test equals the rotation-0
test with a rotation-dependent subset of the x and y axes reversed — only x
for rotation 1, both x and y for rotation 2, only y for rotation 3 (and the
empty set for rotation 0); the z comparisons are never reversed. -/
theorem claim_C3_amended (i c : BoundBox) :
    CheckBoundingBox0 i c = checkGen false false false i c ∧
    CheckBoundingBox1 i c = checkGen true false false i c ∧
    CheckBoundingBox2 i c = checkGen true true false i c ∧
    CheckBoundingBox3 i c = checkGen false true false i c :=
  ⟨rfl, rfl, rfl, rfl⟩

/-- C4, counterexample: for camera rotation 2, `RotateBoundBoxSize` does not
subtract 1 on two of the three axes before rotating — no choice of two
distinct axes matches it (it subtracts on no axis at all), already at the
all-zero extent. -/
theorem claim_C4_counterexample :
    ¬ ∃ a b : Axis, a ≠ b ∧ ∀ s : CoordsXYZ,
      RotateBoundBoxSize s 2 = rotateXYZ (decAxis a (decAxis b s)) (rbbsAngle 2) := by
  rintro ⟨a, b, hne, hall⟩
  have h := hall ⟨0, 0, 0⟩
  revert hne h
  cases a <;> cases b <;> decide

/-- C4, amended: for every camera rotation, `RotateBoundBoxSize` subtracts 1
on a rotation-dependent subset of the axes — x and y for rotation 0, only x
for rotation 1, no axis for rotation 2, only y for rotation 3 — before
applying the 90-degree-quantized rotation. -/
theorem claim_C4_amended (s : CoordsXYZ) (r : Nat) (hr : r < 4) :
    RotateBoundBoxSize s r = rotateXYZ ((decAxesFor r).foldr decAxis s) (rbbsAngle r) := by
  interval_cases r <;> rfl

/-- Witness for C4 amended, at rotation 1 and extent (5, 6, 7). -/
theorem claim_C4_amended_witness :
    RotateBoundBoxSize ⟨5, 6, 7⟩ 1 = rotateXYZ ((decAxesFor 1).foldr decAxis ⟨5, 6, 7⟩) (rbbsAngle 1) :=
  claim_C4_amended ⟨5, 6, 7⟩ 1 (by norm_num)

/-- The culling test fails exactly under the four half-plane conditions the
spec lists. -/
theorem ImageWithinDPI_eq_false_iff (p : ScreenCoordsXY) (g : G1Element) (d : DPI) :
    ImageWithinDPI p g d = false ↔
      (p.x + g.x_offset + g.width ≤ d.x ∨ p.y + g.y_offset + g.height ≤ d.y ∨
        p.x + g.x_offset ≥ d.x + d.width ∨ p.y + g.y_offset ≥ d.y + d.height) := by
  simp only [ImageWithinDPI]
  split_ifs with h1 h2 h3 h4 <;> simp <;> omega

/-- C5: with arena space available and valid image metadata, the builder
returns none exactly when the image's screen footprint misses the clip
rectangle: right edge at or left of clip-left, or top at or below
clip-bottom, or left edge at or right of clip-right, or bottom at or above
clip-top; in particular a footprint overlapping the clip rectangle by one
pixel is added. -/
theorem claim_C5 (translate : Nat → CoordsXYZ → ScreenCoordsXY) (g : G1Element)
    (b : BuilderState) (image_id : Nat) (offset boundBoxSize boundBoxOffset : CoordsXYZ)
    (hpool : b.noPaintStructsAvailable = false) :
    (sub_9819_c translate (some g) b image_id offset boundBoxSize boundBoxOffset = none ↔
      ((builderImagePos translate b offset).x + g.x_offset + g.width ≤ b.dpi.x ∨
        (builderImagePos translate b offset).y + g.y_offset + g.height ≤ b.dpi.y ∨
        (builderImagePos translate b offset).x + g.x_offset ≥ b.dpi.x + b.dpi.width ∨
        (builderImagePos translate b offset).y + g.y_offset ≥ b.dpi.y + b.dpi.height)) := by
  rw [← ImageWithinDPI_eq_false_iff (builderImagePos translate b offset) g b.dpi]
  simp only [sub_9819_c, hpool, Bool.false_eq_true, if_false]
  cases h : ImageWithinDPI (builderImagePos translate b offset) g b.dpi <;> simp [h]

/-- Witness for C5: a 1x1 image whose footprint overlaps the 10x10 clip
rectangle exactly at its bottom-right pixel is added (the builder does not
return none). -/
theorem claim_C5_witness :
    sub_9819_c (fun _ c => ⟨c.x, c.y⟩) (some ⟨0, 0, 1, 1⟩)
        ⟨false, 0, ⟨0, 0⟩, ⟨0, 0, 10, 10, 0⟩, 0, ⟨0, 0⟩⟩ 0 ⟨9, 9, 0⟩ ⟨1, 1, 1⟩ ⟨0, 0, 0⟩ ≠
      none := by
  have h := claim_C5 (fun _ c => ⟨c.x, c.y⟩) ⟨0, 0, 1, 1⟩
    ⟨false, 0, ⟨0, 0⟩, ⟨0, 0, 10, 10, 0⟩, 0, ⟨0, 0⟩⟩ 0 ⟨9, 9, 0⟩ ⟨1, 1, 1⟩ ⟨0, 0, 0⟩ rfl
  intro hn
  have h2 := h.mp hn
  revert h2
  decide

/-- C9, counterexample: at zoom level 2 a primitive at screen position
(13, 7) that is NOT classified as a free-standing entity (here: terrain) is
drawn at the unsnapped position (13, 7), not at (12, 4). -/
theorem claim_C9_counterexample :
    PaintDrawStructScreenPos 2 VIEWPORT_INTERACTION_ITEM_TERRAIN 13 7 = (13, 7) ∧
      ((13, 7) : Int × Int) ≠ (12, 4) := by
  decide

/-- C9, amended: at zoom level 2 a primitive classified as a free-standing
entity (sprite) at screen position (13, 7) is drawn floor-aligned to the
4-pixel grid, at (12, 4). -/
theorem claim_C9_amended :
    PaintDrawStructScreenPos 2 VIEWPORT_INTERACTION_ITEM_SPRITE 13 7 = (12, 4) := by
  decide

/-- C10: the zoom-level pixel snapping of the draw dispatcher applies only to
sprite-classified primitives — any other classification is drawn at its
unsnapped coordinates at every zoom level — and for sprite-classified
primitives at zoom at least 1 both coordinates are floored to the 2-pixel
grid, then to the 4-pixel grid at zoom at least 2. -/
theorem claim_C10 (zoom : Int) (spriteType : Nat) (x y : Int) :
    (spriteType ≠ VIEWPORT_INTERACTION_ITEM_SPRITE →
      PaintDrawStructScreenPos zoom spriteType x y = (x, y)) ∧
    (spriteType = VIEWPORT_INTERACTION_ITEM_SPRITE → zoom ≥ 1 →
      PaintDrawStructScreenPos zoom spriteType x y =
        if zoom ≥ 2 then (floor2 (floor2 x 2) 4, floor2 (floor2 y 2) 4)
        else (floor2 x 2, floor2 y 2)) := by
  constructor
  · intro h
    simp [PaintDrawStructScreenPos, h]
  · intro h hz
    simp [PaintDrawStructScreenPos, h, hz]

/-- Witness for C10: a terrain-classified primitive is not snapped at zoom 2,
and a sprite-classified one at (13, 7) is snapped at zoom 2. -/
theorem claim_C10_witness :
    PaintDrawStructScreenPos 2 VIEWPORT_INTERACTION_ITEM_TERRAIN 13 7 = (13, 7) ∧
    PaintDrawStructScreenPos 2 VIEWPORT_INTERACTION_ITEM_SPRITE 13 7 =
      (if (2 : Int) ≥ 2 then (floor2 (floor2 13 2) 4, floor2 (floor2 7 2) 4)
        else (floor2 13 2, floor2 7 2)) :=
  ⟨(claim_C10 2 VIEWPORT_INTERACTION_ITEM_TERRAIN 13 7).1 (by decide),
    (claim_C10 2 VIEWPORT_INTERACTION_ITEM_SPRITE 13 7).2 rfl (by norm_num)⟩

/-- Inserting a primitive can only lower the back index. -/
theorem addPS_back_le (s : QuadrantsState) (ps : PS) (rot : Nat) :
    (PaintSessionAddPSToQuadrant s ps rot).1.backIndex ≤ s.backIndex :=
  min_le_left _ _

/-- After an insertion the back index is at most the assigned bucket index. -/
theorem addPS_back_le_idx (s : QuadrantsState) (ps : PS) (rot : Nat) :
    (PaintSessionAddPSToQuadrant s ps rot).1.backIndex ≤
      (PaintSessionAddPSToQuadrant s ps rot).2.quadrant_index :=
  min_le_right _ _

/-- After an insertion the assigned bucket index is at most the front index. -/
theorem addPS_idx_le_front (s : QuadrantsState) (ps : PS) (rot : Nat) :
    (PaintSessionAddPSToQuadrant s ps rot).2.quadrant_index ≤
      (PaintSessionAddPSToQuadrant s ps rot).1.frontIndex :=
  le_max_right _ _

/-- Inserting a primitive can only raise the front index. -/
theorem addPS_front_le (s : QuadrantsState) (ps : PS) (rot : Nat) :
    s.frontIndex ≤ (PaintSessionAddPSToQuadrant s ps rot).1.frontIndex :=
  le_max_left _ _

/-- The clamped bucket index is always inside the bucket table. -/
theorem addPS_idx_lt (s : QuadrantsState) (ps : PS) (rot : Nat) :
    (PaintSessionAddPSToQuadrant s ps rot).2.quadrant_index < MAX_PAINT_QUADRANTS := by
  have h1 : min (max (Int.tdiv (CalculatePositionHash ps rot) 32) 0)
      ((MAX_PAINT_QUADRANTS : Int) - 1) ≤ (MAX_PAINT_QUADRANTS : Int) - 1 := min_le_right _ _
  show (min (max (Int.tdiv (CalculatePositionHash ps rot) 32) 0)
      ((MAX_PAINT_QUADRANTS : Int) - 1)).toNat < MAX_PAINT_QUADRANTS
  simp only [MAX_PAINT_QUADRANTS] at h1 ⊢
  omega

/-- Across a whole generation run the back index never rises. -/
theorem generateInsertions_back_le (rot : Nat) :
    ∀ (l : List PS) (s : QuadrantsState),
      (generateInsertions rot s l).1.backIndex ≤ s.backIndex := by
  intro l
  induction l with
  | nil => intro s; exact le_refl _
  | cons p rest ih =>
    intro s
    calc (generateInsertions rot s (p :: rest)).1.backIndex
        = (generateInsertions rot (PaintSessionAddPSToQuadrant s p rot).1 rest).1.backIndex := rfl
      _ ≤ (PaintSessionAddPSToQuadrant s p rot).1.backIndex := ih _
      _ ≤ s.backIndex := addPS_back_le s p rot

/-- Across a whole generation run the front index never falls. -/
theorem generateInsertions_front_le (rot : Nat) :
    ∀ (l : List PS) (s : QuadrantsState),
      s.frontIndex ≤ (generateInsertions rot s l).1.frontIndex := by
  intro l
  induction l with
  | nil => intro s; exact le_refl _
  | cons p rest ih =>
    intro s
    calc s.frontIndex
        ≤ (PaintSessionAddPSToQuadrant s p rot).1.frontIndex := addPS_front_le s p rot
      _ ≤ (generateInsertions rot (PaintSessionAddPSToQuadrant s p rot).1 rest).1.frontIndex := ih _
      _ = (generateInsertions rot s (p :: rest)).1.frontIndex := rfl

/-- C6: every primitive inserted during generation gets a bucket index inside
the fixed bucket table, and at the end of generation the session's occupied
range brackets every inserted primitive's bucket index:
back index at most the bucket index, bucket index at most the front index. -/
theorem claim_C6 (rotation : Nat) (s0 : QuadrantsState) (inputs : List PS) (p : PS)
    (hp : p ∈ (generateInsertions rotation s0 inputs).2) :
    p.quadrant_index < MAX_PAINT_QUADRANTS ∧
      (generateInsertions rotation s0 inputs).1.backIndex ≤ p.quadrant_index ∧
      p.quadrant_index ≤ (generateInsertions rotation s0 inputs).1.frontIndex := by
  induction inputs generalizing s0 with
  | nil => simp [generateInsertions] at hp
  | cons a rest ih =>
    have hstep : (generateInsertions rotation s0 (a :: rest)).2
        = (PaintSessionAddPSToQuadrant s0 a rotation).2 ::
          (generateInsertions rotation (PaintSessionAddPSToQuadrant s0 a rotation).1 rest).2 := rfl
    have hstate : (generateInsertions rotation s0 (a :: rest)).1
        = (generateInsertions rotation (PaintSessionAddPSToQuadrant s0 a rotation).1 rest).1 := rfl
    rw [hstep] at hp
    rw [hstate]
    rcases List.mem_cons.mp hp with h | h
    · subst h
      refine ⟨addPS_idx_lt _ _ _, ?_, ?_⟩
      · exact le_trans (generateInsertions_back_le rotation rest _) (addPS_back_le_idx s0 a rotation)
      · exact le_trans (addPS_idx_le_front s0 a rotation) (generateInsertions_front_le rotation rest _)
    · exact ih _ h

/-- Witness for C6: inserting two concrete primitives at rotation 0, the
first inserted primitive satisfies all three bounds. -/
theorem claim_C6_witness :
    let p1 : PS := ⟨1, ⟨64, 32, 0, 96, 64, 16⟩, 0, false, false, false⟩
    let p2 : PS := ⟨2, ⟨0, 0, 0, 32, 32, 16⟩, 0, false, false, false⟩
    let s0 : QuadrantsState := ⟨fun _ => [], UINT32_MAX, 0⟩
    let r := generateInsertions 0 s0 [p1, p2]
    ∀ p ∈ r.2, p.quadrant_index < MAX_PAINT_QUADRANTS ∧
      r.1.backIndex ≤ p.quadrant_index ∧ p.quadrant_index ≤ r.1.frontIndex := by
  intro p1 p2 s0 r p hp
  exact claim_C6 0 s0 [p1, p2] p hp

/-- C7, counterexample: with the pool exhausted, a creation attempt does fail
(returns none) and leaves the pool and buckets untouched, but the session is
NOT left exactly as it was: the last-primitive and last-attached cursors are
cleared before the capacity check, so a previously set cursor is lost. -/
theorem claim_C7_counterexample :
    let s : Session :=
      { remainingPaintEntries := 0, nextId := 9, currentRotation := 0,
        spritePosition := ⟨0, 0⟩, dpi := ⟨0, 0, 10, 10, 0⟩, interactionType := 0,
        mapPosition := ⟨0, 0⟩, quads := ⟨fun _ => [], UINT32_MAX, 0⟩,
        lastPS := some 7, lastAttachedPS := some 3,
        rootAttachHead := [], attachedEntries := [] }
    let r := PaintAddImageAsParent (fun _ c => ⟨c.x, c.y⟩) none s 0 ⟨0, 0, 0⟩ ⟨1, 1, 1⟩ ⟨0, 0, 0⟩
    r.1 = none ∧ r.2.remainingPaintEntries = s.remainingPaintEntries ∧
      s.lastPS = some 7 ∧ r.2.lastPS = none := by
  decide

/-- C7, amended: when the pool is exhausted, a creation attempt returns a
failure result and no pool state changes — but the session is not left
exactly as it was: its last-primitive and last-attached cursors are cleared
at entry even on the failed attempt. -/
theorem claim_C7_amended (translate : Nat → CoordsXYZ → ScreenCoordsXY)
    (g1 : Option G1Element) (s : Session) (image_id : Nat)
    (offset boundBoxSize boundBoxOffset : CoordsXYZ)
    (h : s.remainingPaintEntries = 0) :
    PaintAddImageAsParent translate g1 s image_id offset boundBoxSize boundBoxOffset =
      (none, { s with lastPS := none, lastAttachedPS := none }) := by
  simp [PaintAddImageAsParent, sub_9819_c, Session.builderView, Session.noPaintStructsAvailable, h]

/-- Witness for C7 amended, at a concrete exhausted session. -/
theorem claim_C7_amended_witness :
    let s : Session :=
      { remainingPaintEntries := 0, nextId := 4, currentRotation := 1,
        spritePosition := ⟨8, 8⟩, dpi := ⟨0, 0, 20, 20, 0⟩, interactionType := 3,
        mapPosition := ⟨32, 32⟩, quads := ⟨fun _ => [], UINT32_MAX, 0⟩,
        lastPS := some 2, lastAttachedPS := none,
        rootAttachHead := [none, none], attachedEntries := [] }
    PaintAddImageAsParent (fun _ c => ⟨c.x, c.y⟩) none s 5 ⟨1, 2, 3⟩ ⟨4, 5, 6⟩ ⟨0, 0, 0⟩ =
      (none, { s with lastPS := none, lastAttachedPS := none }) := by
  intro s
  exact claim_C7_amended (fun _ c => ⟨c.x, c.y⟩) none s 5 ⟨1, 2, 3⟩ ⟨4, 5, 6⟩ ⟨0, 0, 0⟩ rfl

/-- C8: when no attached primitive exists in the current call sequence,
attach-to-last-attached behaves exactly as attach-to-last-primitive; and when
no root primitive exists either, it returns false. -/
theorem claim_C8 (s : Session) (image_id : Nat) (x y : Int)
    (h : s.lastAttachedPS = none) :
    PaintAttachToPreviousAttach s image_id x y = PaintAttachToPreviousPS s image_id x y ∧
      (s.lastPS = none → (PaintAttachToPreviousAttach s image_id x y).1 = false) := by
  constructor
  · simp [PaintAttachToPreviousAttach, h]
  · intro h2
    cases hnp : s.noPaintStructsAvailable <;>
      simp [PaintAttachToPreviousAttach, h, PaintAttachToPreviousPS, h2, hnp]

/-- Witness for C8: a fresh session with neither cursor set — the fallback
equality holds and the call returns false. -/
theorem claim_C8_witness :
    let s : Session :=
      { remainingPaintEntries := 5, nextId := 0, currentRotation := 0,
        spritePosition := ⟨0, 0⟩, dpi := ⟨0, 0, 10, 10, 0⟩, interactionType := 0,
        mapPosition := ⟨0, 0⟩, quads := ⟨fun _ => [], UINT32_MAX, 0⟩,
        lastPS := none, lastAttachedPS := none,
        rootAttachHead := [], attachedEntries := [] }
    PaintAttachToPreviousAttach s 1 2 3 = PaintAttachToPreviousPS s 1 2 3 ∧
      (PaintAttachToPreviousAttach s 1 2 3).1 = false := by
  intro s
  exact ⟨(claim_C8 s 1 2 3 rfl).1, (claim_C8 s 1 2 3 rfl).2 rfl⟩

/-- The splice scan only rearranges the window: spliced-out entries, passed
entries, and remainder together are a permutation of the accumulators plus
the input. -/
theorem spliceLoop_perm (ck : BoundBox → Bool) :
    ∀ (chain spliced scanned : List PS),
      ((spliceLoop ck spliced scanned chain).1 ++
          ((spliceLoop ck spliced scanned chain).2.1 ++
            (spliceLoop ck spliced scanned chain).2.2)).Perm
        (spliced ++ (scanned ++ chain)) := by
  intro chain
  induction chain with
  | nil =>
    intro spliced scanned
    simp only [spliceLoop]
    exact List.Perm.refl _
  | cons t rest ih =>
    intro spliced scanned
    by_cases hb : t.flag_bigger = true
    · simp only [spliceLoop, hb, if_true]
      exact List.Perm.refl _
    · by_cases hc : (t.flag_next && ck t.bounds) = true
      · rw [show spliceLoop ck spliced scanned (t :: rest) =
            spliceLoop ck (t :: spliced) scanned rest from by simp [spliceLoop, hb, hc]]
        refine (ih (t :: spliced) scanned).trans ?_
        simpa using (@List.perm_middle _ t (spliced ++ scanned) rest).symm
      · rw [show spliceLoop ck spliced scanned (t :: rest) =
            spliceLoop ck spliced (t :: scanned) rest from by simp [spliceLoop, hb, hc]]
        refine (ih spliced (t :: scanned)).trans ?_
        exact List.Perm.append_left spliced
          (by simpa using (@List.perm_middle _ t scanned rest).symm)

/-- The outer scan's search decomposes the chain around the entry it finds,
and that entry has its IDENTICAL flag set. -/
theorem findIdentical_eq :
    ∀ (l pre : List PS) (s : PS) (post : List PS), findIdentical l = some (pre, s, post) →
      l = pre ++ s :: post ∧ s.flag_identical = true := by
  intro l
  induction l with
  | nil => intro pre s post h; simp [findIdentical] at h
  | cons n rest ih =>
    intro pre s post h
    by_cases hb : n.flag_bigger = true
    · simp [findIdentical, hb] at h
    · by_cases hi : n.flag_identical = true
      · simp [findIdentical, hb, hi] at h
        obtain ⟨h1, h2, h3⟩ := h
        subst h1; subst h2; subst h3
        exact ⟨rfl, hi⟩
      · cases hr : findIdentical rest with
        | none => simp [findIdentical, hb, hi, hr] at h
        | some trip =>
          obtain ⟨pre2, s2, post2⟩ := trip
          simp [findIdentical, hb, hi, hr] at h
          obtain ⟨h1, h2, h3⟩ := h
          obtain ⟨hrest, hflag⟩ := ih pre2 s2 post2 hr
          subst h1; subst h2; subst h3
          exact ⟨by simp [hrest], hflag⟩

/-- Tagging never changes a node's identity. -/
theorem setQuadrantFlags_id (q : Nat) (f : Bool) (p : PS) :
    (setQuadrantFlags q f p).id = p.id := by
  simp only [setQuadrantFlags]
  split_ifs <;> rfl

/-- The tagging pass keeps the chain's identities in place. -/
theorem tagQuadrantLoop_ids (q : Nat) (f : Bool) :
    ∀ l : List PS, ids (tagQuadrantLoop q f l) = ids l := by
  intro l
  induction l with
  | nil => rfl
  | cons p rest ih =>
    by_cases hq : (setQuadrantFlags q f p).quadrant_index ≤ q + 1
    · simp only [tagQuadrantLoop, hq, if_true, ids, List.map_cons, setQuadrantFlags_id]
      exact congrArg _ ih
    · simp [tagQuadrantLoop, hq, ids, setQuadrantFlags_id]

/-- The IDENTICAL count distributes over concatenation. -/
theorem countIdentical_append (a b : List PS) :
    countIdentical (a ++ b) = countIdentical a + countIdentical b :=
  List.countP_append _ _ _

/-- The IDENTICAL count of a cons cell. -/
theorem countIdentical_cons (p : PS) (l : List PS) :
    countIdentical (p :: l) = countIdentical l + if p.flag_identical then 1 else 0 :=
  List.countP_cons _ _ _

/-- Permuted chains have the same IDENTICAL count. -/
theorem countIdentical_perm {a b : List PS} (h : a.Perm b) :
    countIdentical a = countIdentical b :=
  h.countP_eq _

/-- Fuel adequacy and conservation for the outer scan: one more unit of fuel
than the number of IDENTICAL-flagged entries always suffices, and the result
chain carries exactly the same node identities. -/
theorem outerScan_some (check : BoundBox → BoundBox → Bool) :
    ∀ (fuel : Nat) (chain : List PS), countIdentical chain < fuel →
      ∃ out, outerScan check fuel chain = some out ∧ (ids out).Perm (ids chain) := by
  intro fuel
  induction fuel with
  | zero => intro chain h; exact absurd h (Nat.not_lt_zero _)
  | succ n ih =>
    intro chain hc
    cases hfi : findIdentical chain with
    | none =>
      refine ⟨chain, ?_, List.Perm.refl _⟩
      simp [outerScan, hfi]
    | some trip =>
      obtain ⟨pre, s, post⟩ := trip
      obtain ⟨hdec, hflag⟩ := findIdentical_eq chain pre s post hfi
      have hsp := spliceLoop_perm (check (clearIdentical s).bounds) post [] [clearIdentical s]
      have hrearr :
          ((spliceLoop (check (clearIdentical s).bounds) [] [clearIdentical s] post).1 ++
            ((spliceLoop (check (clearIdentical s).bounds) [] [clearIdentical s] post).2.1.reverse ++
              (spliceLoop (check (clearIdentical s).bounds) [] [clearIdentical s] post).2.2)).Perm
          (clearIdentical s :: post) := by
        refine (List.Perm.append_left _ (List.Perm.append_right _ (List.reverse_perm _))).trans ?_
        simpa using hsp
      have hnewperm :
          (pre ++ ((spliceLoop (check (clearIdentical s).bounds) [] [clearIdentical s] post).1 ++
            ((spliceLoop (check (clearIdentical s).bounds) [] [clearIdentical s] post).2.1.reverse ++
              (spliceLoop (check (clearIdentical s).bounds) [] [clearIdentical s] post).2.2))).Perm
          (pre ++ clearIdentical s :: post) :=
        List.Perm.append_left pre hrearr
      have hcount :
          countIdentical (pre ++ ((spliceLoop (check (clearIdentical s).bounds) [] [clearIdentical s] post).1 ++
            ((spliceLoop (check (clearIdentical s).bounds) [] [clearIdentical s] post).2.1.reverse ++
              (spliceLoop (check (clearIdentical s).bounds) [] [clearIdentical s] post).2.2))) < n := by
        have h1 := countIdentical_perm hnewperm
        have h2 : countIdentical chain = countIdentical pre + countIdentical post + 1 := by
          rw [hdec, countIdentical_append, countIdentical_cons, hflag]
          simp only [if_true]
          omega
        have h3 : countIdentical (pre ++ clearIdentical s :: post) =
            countIdentical pre + countIdentical post := by
          rw [countIdentical_append, countIdentical_cons]
          simp [clearIdentical]
        omega
      obtain ⟨out, hout, hperm⟩ := ih _ hcount
      refine ⟨out, ?_, ?_⟩
      · simpa [outerScan, hfi] using hout
      · refine hperm.trans ?_
        have hmap := hnewperm.map (fun p : PS => p.id)
        rw [hdec]
        simp only [ids]
        refine hmap.trans ?_
        have hid : (clearIdentical s).id = s.id := rfl
        simp only [List.map_append, List.map_cons, hid]
        exact List.Perm.refl _

/-- The cache search only splits the chain: walked prefix, cache node and
suffix reassemble to the input. -/
theorem findCachePS_eq (q : Nat) :
    ∀ (l : List PS) (p : PS),
      p :: l = (findCachePS q p l).1 ++ (findCachePS q p l).2.1 :: (findCachePS q p l).2.2 := by
  intro l
  induction l with
  | nil => intro p; rfl
  | cons n rest ih =>
    intro p
    by_cases hq : q > n.quadrant_index
    · simp only [findCachePS, if_pos hq, List.cons_append]
      exact congrArg (List.cons p) (ih n)
    · simp [findCachePS, hq]

/-- One helper call always succeeds; it returns a chain with the same node
identities as its input, and its returned cache position is a valid index
into that chain. -/
theorem helper_some (check : BoundBox → BoundBox → Bool) (q : Nat) (f : Bool)
    (h : PS) (t : List PS) :
    ∃ nc ci, PaintArrangeStructsHelperRotation check q f h t = some (nc, ci) ∧
      (ids nc).Perm (ids (h :: t)) ∧ ci < nc.length := by
  have hdec := findCachePS_eq q t h
  cases hsuf : (findCachePS q h t).2.2 with
  | nil =>
    refine ⟨(findCachePS q h t).1 ++ [(findCachePS q h t).2.1],
      (findCachePS q h t).1.length, ?_, ?_, ?_⟩
    · simp [PaintArrangeStructsHelperRotation, hsuf]
    · rw [hdec, hsuf]
    · simp
  | cons a l =>
    obtain ⟨out, hout, hperm⟩ := outerScan_some check
      (countIdentical (tagQuadrantLoop q f (a :: l)) + 1)
      (tagQuadrantLoop q f (a :: l)) (Nat.lt_succ_self _)
    refine ⟨(findCachePS q h t).1 ++ (findCachePS q h t).2.1 :: out,
      (findCachePS q h t).1.length, ?_, ?_, ?_⟩
    · simp [PaintArrangeStructsHelperRotation, hsuf, hout]
    · have hids : (ids out).Perm (ids (a :: l)) := by
        rw [← tagQuadrantLoop_ids q f (a :: l)]
        exact hperm
      rw [hdec, hsuf]
      simp only [ids, List.map_append, List.map_cons]
      exact List.Perm.append_left _ (List.Perm.cons _ (by simpa [ids] using hids))
    · simp

/-- Running the helper below a valid cache index always succeeds, preserves
the chain's identities, and yields a valid cache index again. -/
theorem helperAt_some (check : BoundBox → BoundBox → Bool) (q : Nat) (f : Bool)
    (chain : List PS) (ci : Nat) (hci : ci < chain.length) :
    ∃ nc ci2, helperAt check q f chain ci = some (nc, ci2) ∧
      (ids nc).Perm (ids chain) ∧ ci2 < nc.length := by
  cases hd : chain.drop ci with
  | nil =>
    exfalso
    have h2 : chain.length ≤ ci := List.drop_eq_nil_iff.mp hd
    omega
  | cons h t =>
    obtain ⟨nc, ci2, heq, hperm, hlt⟩ := helper_some check q f h t
    refine ⟨chain.take ci ++ nc, ci + ci2, ?_, ?_, ?_⟩
    · simp [helperAt, hd, heq]
    · have h3 : chain.take ci ++ chain.drop ci = chain := List.take_append_drop ci chain
      conv_rhs => rw [← h3, hd]
      simp only [ids, List.map_append]
      exact List.Perm.append_left _ hperm
    · have h4 : (chain.take ci).length = ci := by
        rw [List.length_take]
        omega
      simp only [List.length_append, h4]
      omega

/-- The per-quadrant loop of the arranger always succeeds and preserves the
chain's identities. -/
theorem arrangeFold_some (check : BoundBox → BoundBox → Bool) :
    ∀ (qs : List Nat) (chain : List PS) (ci : Nat), ci < chain.length →
      ∃ out, arrangeFold check qs chain ci = some out ∧ (ids out).Perm (ids chain) := by
  intro qs
  induction qs with
  | nil => intro chain ci _; exact ⟨chain, rfl, List.Perm.refl _⟩
  | cons q rest ih =>
    intro chain ci hci
    obtain ⟨nc, ci2, heq, hperm, hlt⟩ := helperAt_some check (q % 65536) false chain ci hci
    obtain ⟨out, hout, hperm2⟩ := ih nc ci2 hlt
    exact ⟨out, by simp [arrangeFold, heq, hout], hperm2.trans hperm⟩

/-- C2: for every input — any camera rotation, any head sentinel, any bucket
contents, including identical or mutually-dominating bounding boxes — the
depth-order arranger terminates (the fuelled model returns a result within
its explicit bound of one pass per IDENTICAL-flagged entry per window) and
its output chain is a permutation of the input entries: no entry is created,
lost, or duplicated. -/
theorem claim_C2 (rotation : Nat) (head : PS) (back frontIndex : Nat)
    (buckets : List (List PS)) :
    ∃ out, PaintSessionArrange rotation head (some back) buckets frontIndex = some out ∧
      (ids out).Perm (ids (head :: buckets.flatten)) := by
  obtain ⟨c1, i1, h1, hp1, hl1⟩ := helperAt_some (CheckBoundingBoxR rotation) (back % 65536)
    true (head :: buckets.flatten) 0 (by simp)
  obtain ⟨out, h2, hp2⟩ := arrangeFold_some (CheckBoundingBoxR rotation)
    (List.range' (back + 1) (frontIndex - (back + 1))) c1 i1 hl1
  exact ⟨out, by simp [PaintSessionArrange, h1, h2], hp2.trans hp1⟩

/-- Full characterisation of the splice scan when no BIGGER-flagged entry
stops it: exactly the NEXT-flagged entries passing the dominance test are
spliced out (accumulated most-recent-first), everything else is passed over
in order, and the scan consumes the whole window. -/
theorem spliceLoop_no_bigger (ck : BoundBox → Bool) :
    ∀ (post spliced scanned : List PS), (∀ t ∈ post, t.flag_bigger = false) →
      spliceLoop ck spliced scanned post =
        ((post.filter (fun t => t.flag_next && ck t.bounds)).reverse ++ spliced,
          (post.filter (fun t => !(t.flag_next && ck t.bounds))).reverse ++ scanned, []) := by
  intro post
  induction post with
  | nil => intro spliced scanned _; simp [spliceLoop]
  | cons t rest ih =>
    intro spliced scanned h
    have hb : t.flag_bigger = false := h t (by simp)
    have hrest : ∀ u ∈ rest, u.flag_bigger = false := fun u hu => h u (by simp [hu])
    by_cases hc : (t.flag_next && ck t.bounds) = true
    · rw [show spliceLoop ck spliced scanned (t :: rest) =
          spliceLoop ck (t :: spliced) scanned rest from by simp [spliceLoop, hb, hc]]
      rw [ih (t :: spliced) scanned hrest]
      have hn : t.flag_next = true ∧ ck t.bounds = true := by simpa using hc
      simp [List.filter_cons, hn.1, hn.2]
    · rw [show spliceLoop ck spliced scanned (t :: rest) =
          spliceLoop ck spliced (t :: scanned) rest from by simp [spliceLoop, hb, hc]]
      rw [ih spliced (t :: scanned) hrest]
      have hn : t.flag_next = false ∨ ck t.bounds = false := by
        cases hn1 : t.flag_next <;> cases hn2 : ck t.bounds <;> simp_all
      rcases hn with hn | hn <;> simp [List.filter_cons, hn]

/-- C1, counterexample: under rotation 0, with an S-entry of bucket index 4
(box (5,5,5)–(10,10,10)) and a T-entry of bucket index 5 (box
(0,0,0)–(2,2,2)), the rotation-0 dominance test holds of (S, T), and the
arranger splices T to immediately PRECEDE S — the arranged chain is head,
T, S (identities 0, 2, 1) — not to immediately follow it as the claim
states. -/
theorem claim_C1_counterexample :
    CheckBoundingBox0 ⟨5, 5, 5, 10, 10, 10⟩ ⟨0, 0, 0, 2, 2, 2⟩ = true ∧
      (PaintSessionArrange 0 ⟨0, ⟨0, 0, 0, 0, 0, 0⟩, 0, false, false, false⟩ (some 4)
          [[⟨1, ⟨5, 5, 5, 10, 10, 10⟩, 4, false, false, false⟩],
            [⟨2, ⟨0, 0, 0, 2, 2, 2⟩, 5, false, false, false⟩]] 5).map ids =
        some [0, 2, 1] := by
  decide

/-- C1, amended: in the rotation-0 window scan from a selected entry S
(against candidates none of which carry the BIGGER flag), a candidate T is
spliced out exactly when T is NEXT-tagged and S's far corner dominates T's
near corner on all three axes while the reverse containment does not also
hold — and each spliced T is reinserted immediately BEFORE S (the spliced
entries form a most-recent-first block directly preceding S), not after
it. -/
theorem claim_C1_amended (s : PS) (post : List PS)
    (hnb : ∀ t ∈ post, t.flag_bigger = false) :
    (spliceLoop (CheckBoundingBox0 s.bounds) [] [s] post).1 ++
        ((spliceLoop (CheckBoundingBox0 s.bounds) [] [s] post).2.1.reverse ++
          (spliceLoop (CheckBoundingBox0 s.bounds) [] [s] post).2.2) =
      (post.filter (fun t => t.flag_next && CheckBoundingBox0 s.bounds t.bounds)).reverse ++
        s :: post.filter (fun t => !(t.flag_next && CheckBoundingBox0 s.bounds t.bounds)) := by
  rw [spliceLoop_no_bigger (CheckBoundingBox0 s.bounds) post [] [s] hnb]
  simp

/-- Witness for C1 amended: a NEXT-tagged candidate passing the test and one
failing it, around a concrete S. -/
theorem claim_C1_amended_witness :
    let s : PS := ⟨1, ⟨5, 5, 5, 10, 10, 10⟩, 4, true, false, false⟩
    let t1 : PS := ⟨2, ⟨0, 0, 0, 2, 2, 2⟩, 5, true, false, false⟩
    let t2 : PS := ⟨3, ⟨100, 100, 100, 101, 101, 101⟩, 5, true, false, false⟩
    (spliceLoop (CheckBoundingBox0 s.bounds) [] [s] [t1, t2]).1 ++
        ((spliceLoop (CheckBoundingBox0 s.bounds) [] [s] [t1, t2]).2.1.reverse ++
          (spliceLoop (CheckBoundingBox0 s.bounds) [] [s] [t1, t2]).2.2) =
      ([t1, t2].filter (fun t => t.flag_next && CheckBoundingBox0 s.bounds t.bounds)).reverse ++
        s :: [t1, t2].filter (fun t => !(t.flag_next && CheckBoundingBox0 s.bounds t.bounds)) := by
  intro s t1 t2
  exact claim_C1_amended s [t1, t2] (by decide)

end Paint
